import Mathlib

/-!
# LiveLinen client-side scripts — verification development

Shallow embedding of the browser-side logic of the LiveLinen repository
(static/components/js/component_form.js, the costing script, and
staticfiles/chat/js/chat.js), together with proofs about that embedding.

Modelling conventions:
* JavaScript numbers are modelled as exact rationals (`ℚ`); `toFixed(n)`
  is modelled as round-half-up to `n` decimal places on exact rationals.
* DOM element values are strings; an absent JSON field is `Option.none`;
  JavaScript falsy-coalescing `a || b` on strings is `jsOr`.
* Asynchronous code is split into a synchronous start phase and a
  resolve phase (the promise continuation); interleavings of overlapping
  calls are explicit event schedules folded over a DOM state.
-/

/- Batteries seals the arithmetic of `ℚ` behind `@[irreducible]`; restore
the default reducibility so that concrete instances of the embedded
functions can be evaluated by `decide` (kernel checking is unaffected
by reducibility attributes). -/
set_option allowUnsafeReducibility true in
attribute [semireducible] Rat.add Rat.mul Rat.inv Rat.sub Rat.ofScientific

/-- JavaScript `a || b` for strings: the empty string is falsy. -/
def jsOr (s d : String) : String := if s = "" then d else s

/-- JavaScript `o || b` where `o` is a possibly absent string field:
`none` (absent/null) and `""` are both falsy. -/
def jsOrO (o : Option String) (d : String) : String :=
  match o with
  | none => d
  | some s => if s = "" then d else s

/-- JavaScript `x !== undefined && x !== null ? String(x) : d`:
presence test (not falsiness) on an optional string field. -/
def presOr (o : Option String) (d : String) : String :=
  match o with
  | none => d
  | some s => s

/-- JavaScript `s.toLowerCase()`, character-wise (ASCII). -/
def jsToLower (s : String) : String := String.mk (s.data.map Char.toLower)

/-- JavaScript `s.trim()`: strip leading and trailing whitespace. -/
def jsTrim (s : String) : String :=
  String.mk (((s.data.dropWhile Char.isWhitespace).reverse.dropWhile
    Char.isWhitespace).reverse)

/-! ## Number parsing — `parseNum` inside `computeClientMetrics`

`component_form.js` line 508:
`Number(String(v || "").replace(/[^0-9.\-]/g, ""))`, falling back to 0
when the result is not finite.  After the character filter only digits,
dots and minus signs remain, so the surviving `Number` grammar is an
optional leading minus followed by digits with at most one dot (and at
least one digit).  Everything else is `NaN` and falls back to `0`. -/

/-- The character filter `replace(/[^0-9.\-]/g, "")`. -/
def keepNumChars (s : String) : List Char :=
  s.data.filter (fun c => c.isDigit || c = '.' || c = '-')

/-- Numeric value of a digit list (most significant first). -/
def digitsToNat (l : List Char) : Nat :=
  l.foldl (fun a c => a * 10 + (c.toNat - 48)) 0

/-- `Number` on an unsigned filtered string: `digits`, `digits.digits`,
`digits.` or `.digits`; anything else (stray minus, several dots, no
digit at all) is `NaN`, i.e. `none`. -/
def parseUnsigned (l : List Char) : Option ℚ :=
  if l.any (fun c => c = '-') then none
  else
    match l.splitOn '.' with
    | [ip] =>
        if ip ≠ [] ∧ ip.all Char.isDigit then some (digitsToNat ip) else none
    | [ip, fp] =>
        if (ip ≠ [] ∨ fp ≠ []) ∧ ip.all Char.isDigit ∧ fp.all Char.isDigit then
          some ((digitsToNat ip : ℚ) + (digitsToNat fp : ℚ) / (10 : ℚ) ^ fp.length)
        else none
    | _ => none

/-- `Number` on a filtered character list: optional single leading minus. -/
def parseNumCore : List Char → Option ℚ
  | '-' :: rest => (parseUnsigned rest).map (fun q => -q)
  | l => parseUnsigned l

/-- The `parseNum` helper of `computeClientMetrics`: filter the string,
apply `Number`, fall back to `0` when not finite.  (`Number("")` is `0`,
which coincides with the fallback.) -/
def parseNum (s : String) : ℚ :=
  (parseNumCore (keepNumChars s)).getD 0

/-! ## Fixed-point rounding — `toFixed` -/

/-- Round half up to the nearest integer; models the rounding performed
by `toFixed` on the exact-rational idealisation of JS numbers. -/
def jsRound (q : ℚ) : ℤ := ⌊q + 1 / 2⌋

/-- `(+x.toFixed(2))`: numeric value of `x` rendered to 2 decimals. -/
def round2 (q : ℚ) : ℚ := (jsRound (q * 100) : ℚ) / 100

/-- Numeric value of `x.toFixed(4)`. -/
def round4 (q : ℚ) : ℚ := (jsRound (q * 10000) : ℚ) / 10000

/-- Zero-pad a decimal string on the left to `d` characters. -/
def padZeros (s : String) (d : Nat) : String :=
  String.mk (List.replicate (d - s.length) '0') ++ s

/-- The string produced by `x.toFixed(d)` for the exact rational `x`. -/
def fixedStr (d : Nat) (q : ℚ) : String :=
  let n : ℤ := jsRound (q * (10 : ℚ) ^ d)
  let sign := if n < 0 then "-" else ""
  let a := n.natAbs
  sign ++ toString (a / 10 ^ d) ++ "." ++ padZeros (toString (a % 10 ^ d)) d

/-! ## Derived Metric Calculator — `computeClientMetrics`
(`static/components/js/component_form.js` lines 507–529) -/

/-- The width units converted from centimeters (line 518). -/
def cmUnits : List String := ["cm", "centimeter", "centimetre", "cms"]

/-- Numeric values of the three strings returned by
`computeClientMetrics` (`final_price_per_unit`, `price_per_sqfoot`,
`final_cost`). -/
structure ClientMetrics where
  final_price_per_unit : ℚ
  price_per_sqfoot : ℚ
  final_cost : ℚ
deriving Repr, DecidableEq

/-- Width normalisation and denominator of `computeClientMetrics`
(lines 516–521), factored out as a named function for the proofs:
`widthInInch` is `width / 2.54` for centimeter units and `width`
otherwise; `denom = ((widthInInch * 2.54) / 1.07) / 100`. -/
def computeDenom (width : ℚ) (widthUom : String) : ℚ :=
  let u : String := jsToLower (jsOr widthUom "inch")
  let widthInInch : ℚ := if u ∈ cmUnits then width / (254 / 100) else width
  ((widthInInch * (254 / 100)) / (107 / 100)) / 100

/-- Core of `computeClientMetrics` on already-parsed numeric inputs.
Mirrors lines 512–528: `finalPricePerUnit = +(price * (1 + logistics /
100)).toFixed(2)`; `pricePerSqft = finalPricePerUnit / denom` only when
`denom > 0`, else `0`; outputs re-rendered with `toFixed`. -/
def computeClientMetrics (price width : ℚ) (widthUom : String) (logistics : ℚ) :
    ClientMetrics :=
  let finalPricePerUnit : ℚ := round2 (price * (1 + logistics / 100))
  let denom : ℚ := computeDenom width widthUom
  let pricePerSqft : ℚ := if 0 < denom then finalPricePerUnit / denom else 0
  { final_price_per_unit := round2 finalPricePerUnit
    price_per_sqfoot := round4 pricePerSqft
    final_cost := round2 finalPricePerUnit }

/-- `computeClientMetrics` as called in the source: string inputs parsed
with `parseNum` (the unit string is used as-is). -/
def computeClientMetricsStr (priceStr widthStr widthUom logisticsStr : String) :
    ClientMetrics :=
  computeClientMetrics (parseNum priceStr) (parseNum widthStr) widthUom
    (parseNum logisticsStr)

/-- The string record literally returned by `computeClientMetrics`. -/
structure ClientMetricsStr where
  final_price_per_unit : String
  price_per_sqfoot : String
  final_cost : String
deriving Repr, DecidableEq

/-- String outputs of `computeClientMetrics` (lines 524–528). -/
def clientMetricsStrings (priceStr widthStr widthUom logisticsStr : String) :
    ClientMetricsStr :=
  let m := computeClientMetricsStr priceStr widthStr widthUom logisticsStr
  { final_price_per_unit := fixedStr 2 m.final_price_per_unit
    price_per_sqfoot := fixedStr 4 m.price_per_sqfoot
    final_cost := fixedStr 2 m.final_cost }

/-! ## Chat client — `sendMessage`
(`staticfiles/chat/js/chat.js` lines 202–233) -/

/-- `MAX_PAYLOAD_LENGTH` (chat.js line 17). -/
def MAX_PAYLOAD_LENGTH : Nat := 2000

/-- The part of the chat page state read and written by `sendMessage`:
whether the socket is `OPEN`, the text of the input element, and the two
username sources (`window.GLOBAL_CHAT_USERNAME` and the container's
`data-username`; `none` models an absent or falsy value). -/
structure ChatState where
  socketOpen : Bool
  inputValue : String
  globalUsername : Option String
  datasetUsername : Option String
deriving Repr, DecidableEq

/-- The frame sent over the socket: `{ message, username }`. -/
structure ChatPayload where
  message : String
  username : String
deriving Repr, DecidableEq

/-- `window.GLOBAL_CHAT_USERNAME || container.dataset.username ||
"anonymous"` (chat.js lines 219–222). -/
def resolveUsername (st : ChatState) : String :=
  jsOr (st.globalUsername.getD "") (jsOr (st.datasetUsername.getD "") "anonymous")

/-- `sendMessage` (chat.js lines 202–233): nothing is sent when the
socket is not open, when the trimmed input is empty, or when it exceeds
`MAX_PAYLOAD_LENGTH`; otherwise the payload `{message, username}` is
sent and the input is cleared.  (The input element is modelled as
present; `socket.send` is modelled as succeeding.) -/
def sendMessage (st : ChatState) : ChatState × Option ChatPayload :=
  if !st.socketOpen then (st, none)
  else
    let text := jsTrim st.inputValue
    if text = "" then (st, none)
    else if MAX_PAYLOAD_LENGTH < text.length then (st, none)
    else ({ st with inputValue := "" },
          some { message := text, username := resolveUsername st })

/-! ## Multi-select Color & SKU Preview — costing script
(`src/unnamed/part_004`, lines 777–897) -/

/-- A rendered color checkbox: `value` is the color id, `colorName` the
`data-color-name` attribute. -/
structure ColorBox where
  value : String
  colorName : String
deriving Repr, DecidableEq

/-- One SKU preview row, as resolved by `fetchSkuForColor`. -/
structure SkuPreviewEntry where
  colorId : String
  colorName : String
  sku : String
deriving Repr, DecidableEq

/-- `fetchSkuForColor` (lines 811–828): always resolves, with the
server's `sku` string when the payload carries one and `""` otherwise;
the compute-sku endpoint is modelled by the oracle `skuOf` from color id
to the returned `sku` string. -/
def fetchSkuForColor (skuOf : String → String) (colorId colorName : String) :
    SkuPreviewEntry :=
  { colorId := colorId, colorName := colorName, sku := skuOf colorId }

/-- Result of one run of `updateSkuPreviews` (checkbox-container mode,
lines 846–880): the new value of the canonical `id_sku` input and the
rendered preview entries.  `checked` lists the currently-checked color
checkboxes in DOM order. -/
def updateSkuPreviews (skuOf : String → String) (checked : List ColorBox) :
    String × List SkuPreviewEntry :=
  if checked.isEmpty then ("", [])
  else
    let results := checked.map fun ch =>
      fetchSkuForColor skuOf ch.value (jsOr ch.colorName ch.value)
    let sku : String :=
      match results with
      | [r] => jsOr r.sku ""
      | _ => ""
    (sku, results)

/-! ## Remote Lookup Client — `safeFetch`
(`static/components/js/component_form.js` lines 87–139)

`safeFetch` is an `async function`, so even the `throw` on a missing URL
is delivered as a rejected promise, never a synchronous exception; the
embedding is a total function into `Except`.  The response environment
supplies the HTTP outcome and the result of `JSON.parse` on the body
(`parsed = none` models a parse exception). -/

/-- A JSON value (as much structure as the proofs need). -/
inductive JsonV where
  | null
  | bool (b : Bool)
  | num (q : ℚ)
  | str (s : String)
  | obj (fields : List (String × JsonV))

/-- The HTTP response as observed by `safeFetch`: `ok`/`status`/
`statusText` from `res`, `text` from `res.text()`, and `parsed` the
result of `JSON.parse(text)` (`none` when parsing throws). -/
structure HttpResp where
  ok : Bool
  status : Nat
  statusText : String
  text : String
  parsed : Option JsonV

/-- An exception raised inside the `try` block of `safeFetch`: either
`JSON.parse` threw, or the explicit `throw e` for a non-ok status whose
`e.body` is the parsed JSON (lines 122–126). -/
inductive TryThrow where
  | parseThrow
  | fetchThrow (status : Nat) (statusText : String) (body : JsonV)

/-- The failure delivered through the promise rejection of `safeFetch`:
missing URL (line 88), or the `Fetch <status> <statusText>` error that
escapes the function; its `body` is either parsed JSON or raw text. -/
inductive FetchError where
  | urlNotConfigured
  | http (status : Nat) (statusText : String) (body : JsonV ⊕ String)

/-- `safeFetch` (lines 87–139), response handling.  The inner `try`
block parses the body (`text ? JSON.parse(text) : {}`), and for a
non-ok status throws an error carrying the parsed JSON; every exception
of the `try` block — including that one — lands in its own `catch`
block, which rethrows with `e.body = text` (the raw text) when the
status is non-ok, and returns `{raw: text}` otherwise. -/
def safeFetch (url : String) (resp : HttpResp) : Except FetchError JsonV :=
  if url = "" then Except.error FetchError.urlNotConfigured
  else
    let tryBlock : Except TryThrow JsonV :=
      match (if resp.text = "" then some (JsonV.obj []) else resp.parsed) with
      | none => Except.error TryThrow.parseThrow
      | some json =>
          if !resp.ok then
            Except.error (TryThrow.fetchThrow resp.status resp.statusText json)
          else Except.ok json
    match tryBlock with
    | Except.ok json => Except.ok json
    | Except.error _ =>
        if !resp.ok then
          Except.error (FetchError.http resp.status resp.statusText (Sum.inr resp.text))
        else Except.ok (JsonV.obj [("raw", JsonV.str resp.text)])

/-- A 500 response whose body is the parseable JSON object
`\x7b"ok": false\x7d`. -/
def badJsonResp : HttpResp :=
  { ok := false
    status := 500
    statusText := "Server Error"
    text := "\x7b\"ok\":false\x7d"
    parsed := some (JsonV.obj [("ok", JsonV.bool false)]) }

/-! ## Dependent Field Chain — `loadQualitiesByCategory` / `loadTypesByQuality`
(`static/components/js/component_form.js` lines 365–490)

Each loader is split into its synchronous part (everything up to the
`await safeFetch`, returning the request it issues, if any) and its
resolve part (the continuation run when the response arrives; `none`
models the `catch` branch).  A `<select>` is its placeholder option,
its appended options and its current value. -/

/-- One row of a `results` array, with every field the option builders
read (`none` = absent or null). -/
structure RespRow where
  id : Option String
  value : Option String
  type : Option String
  label : Option String
  label_text : Option String
  content_type_id : Option String
  content_type : Option String
  ct : Option String
  extra : Option String
deriving Repr, DecidableEq

/-- A built `<option>`: its `value`, its text, and the dataset
attributes the handlers read (unset attributes are `""`). -/
structure Opt where
  value : String
  text : String
  dtype : String
  dct : String
  did : String
  dlabel : String
  dextra : String
deriving Repr, DecidableEq

/-- A `<select>` element: placeholder option, appended options, value. -/
structure SelectSt where
  placeholder : String
  opts : List Opt
  value : String
deriving Repr, DecidableEq

/-- `clearSelect` (lines 61–68): one placeholder option with value `""`;
the select's value becomes `""`. -/
def clearSelect (placeholder : String) : SelectSt :=
  { placeholder := placeholder, opts := [], value := "" }

/-- The chain state touched by the two loaders: the quality and product
selects and the hidden content-type/object-id/help fields. -/
structure ChainSt where
  quality : SelectSt
  product : SelectSt
  hiddenCT : String
  hiddenOID : String
  helpText : String
deriving Repr, DecidableEq

/-- `setHidden` (lines 70–75). -/
def setHidden (st : ChainSt) (ctv oid label : String) : ChainSt :=
  { st with hiddenCT := ctv, hiddenOID := oid, helpText := label }

/-- A request issued to the Remote Lookup Client by the chain. -/
inductive ChainRequest where
  | qualities (category : String)
  | types (category quality q : String)
deriving Repr, DecidableEq

/-- Option builder of `loadQualitiesByCategory` (lines 387–408):
`value = r.value ?? (id || r.label)`, label from `label`/`label_text`,
dataset `id`/`label`/`extra`.  (`""` plays the role of a null id in the
`id || …` tests.) -/
def mkQualityOpt (r : RespRow) : Opt :=
  let id := presOr r.id ""
  let value := presOr r.value (jsOr id (presOr r.label ""))
  let label := presOr r.label (presOr r.label_text (jsOr id value))
  { value := value, text := label, dtype := "", dct := ""
    did := id, dlabel := label, dextra := presOr r.extra "" }

/-- Option builder of `loadTypesByQuality` (lines 443–476): the text and
`data-type` prefer the trimmed `type`, then the trimmed `label`, then
`#id` or the value; `data-ct` from `content_type_id || content_type ||
ct` when its trim is non-empty. -/
def mkTypeOpt (r : RespRow) : Opt :=
  let id := presOr r.id ""
  let value := presOr r.value (jsOr id (presOr r.label ""))
  let rawType := jsTrim (presOr r.type "")
  let label :=
    match r.label with
    | some l => jsTrim l
    | none => jsOr rawType (if id ≠ "" then "#" ++ id else value)
  let textAndType : String × String :=
    if rawType ≠ "" then (rawType, rawType)
    else if label ≠ "" then (label, label)
    else (if id ≠ "" then "#" ++ id else value, "")
  let ctVal := jsOrO r.content_type_id (jsOrO r.content_type (jsOrO r.ct ""))
  { value := value, text := textAndType.1, dtype := textAndType.2
    dct := if jsTrim ctVal ≠ "" then ctVal else ""
    did := id, dlabel := label, dextra := "" }

/-- After repopulating a select, restore a previously selected value
(lines 411–417 / 479–485): assigning a value with no matching option
leaves the select at `""` (which it already is after `clearSelect`).
The synthesized `change` event belongs to the next chain step and is
outside this state. -/
def restoreSelection (sel : SelectSt) (prevSelected : String) : SelectSt :=
  if prevSelected = "" then sel
  else if prevSelected ∈ sel.opts.map (fun o => o.value) then
    { sel with value := prevSelected }
  else sel

/-- Synchronous part of `loadQualitiesByCategory` (lines 366–379):
capture the previous selection, show the loading placeholders, clear
the hidden fields; an empty category means no request and the
"select category first" placeholder.  Returns (state, request issued,
captured previous selection). -/
def loadQualitiesStart (st : ChainSt) (category : String) :
    ChainSt × Option ChainRequest × String :=
  let prevSelected := jsOr st.quality.value ""
  let st := { st with quality := clearSelect "-- Loading qualities... --"
                      product := clearSelect "-- Select type after quality --" }
  let st := setHidden st "" "" ""
  if category = "" then
    ({ st with quality := clearSelect "-- Select category first --" }, none, prevSelected)
  else
    (st, some (ChainRequest.qualities category), prevSelected)

/-- Resolve part of `loadQualitiesByCategory` (lines 380–421): `none`
is the `catch` branch; an empty `results` array shows the "no
qualities" placeholder; otherwise the options are appended and the
previous selection restored. -/
def loadQualitiesResolve (st : ChainSt) (prevSelected : String)
    (response : Option (List RespRow)) : ChainSt :=
  match response with
  | none => { st with quality := clearSelect "-- Error loading qualities --" }
  | some results =>
      if results.isEmpty then
        { st with quality := clearSelect "-- No qualities found --" }
      else
        let sel := { clearSelect "-- Select quality --" with
                       opts := results.map mkQualityOpt }
        { st with quality := restoreSelection sel prevSelected }

/-- Synchronous part of `loadTypesByQuality` (lines 424–435): an empty
category or quality means no request and the "select quality first"
placeholder.  (`q` is sent as `search_q || ""`.) -/
def loadTypesStart (st : ChainSt) (category quality search_q : String) :
    ChainSt × Option ChainRequest × String :=
  let prevSelected := jsOr st.product.value ""
  let st := { st with product := clearSelect "-- Loading product types... --" }
  let st := setHidden st "" "" ""
  if category = "" ∨ quality = "" then
    ({ st with product := clearSelect "-- Select quality first --" }, none, prevSelected)
  else
    (st, some (ChainRequest.types category quality (jsOr search_q "")), prevSelected)

/-- Resolve part of `loadTypesByQuality` (lines 436–489). -/
def loadTypesResolve (st : ChainSt) (prevSelected : String)
    (response : Option (List RespRow)) : ChainSt :=
  match response with
  | none => { st with product := clearSelect "-- Error loading types --" }
  | some results =>
      if results.isEmpty then
        { st with product := clearSelect "-- No types found --" }
      else
        let sel := { clearSelect "-- Select type --" with
                       opts := results.map mkTypeOpt }
        { st with product := restoreSelection sel prevSelected }

/-! ### Interleaving semantics for overlapping `loadTypesByQuality` calls -/

/-- One invocation of `loadTypesByQuality`: its arguments and the
response its request will eventually get. -/
structure TypesCall where
  category : String
  quality : String
  search_q : String
  response : Option (List RespRow)
deriving Repr, DecidableEq

/-- Scheduler events: the synchronous part of call `i` runs, or the
response of call `i` arrives and its continuation runs. -/
inductive ChainEv where
  | start (i : Nat)
  | resolve (i : Nat)
deriving Repr, DecidableEq

/-- A run: the DOM state plus, per started call, the previous selection
captured by its synchronous part (used by its continuation). -/
structure ChainRun where
  st : ChainSt
  captured : List (Nat × String)
deriving Repr, DecidableEq

/-- Single-step semantics of a schedule of overlapping
`loadTypesByQuality` calls.  A `resolve` event for a call that issued no
request (empty category/quality) is a no-op. -/
def typesChainStep (calls : List TypesCall) (r : ChainRun) : ChainEv → ChainRun
  | ChainEv.start i =>
      match calls.get? i with
      | some c =>
          let out := loadTypesStart r.st c.category c.quality c.search_q
          { st := out.1, captured := (i, out.2.2) :: r.captured }
      | none => r
  | ChainEv.resolve i =>
      match calls.get? i, r.captured.lookup i with
      | some c, some prev =>
          if c.category = "" ∨ c.quality = "" then r
          else { r with st := loadTypesResolve r.st prev c.response }
      | _, _ => r

/-- Run a schedule from a DOM state with no call started yet. -/
def runTypesSchedule (calls : List TypesCall) (evs : List ChainEv)
    (st : ChainSt) : ChainRun :=
  evs.foldl (typesChainStep calls) { st := st, captured := [] }

/-- A chain state as rendered before any selection. -/
def chainInit : ChainSt :=
  { quality := clearSelect "-- Select quality --"
    product := clearSelect "-- Select quality first --"
    hiddenCT := ""
    hiddenOID := ""
    helpText := "" }

/-- Selection A: quality Q1, whose response (row id 7) is slow. -/
def typesCallA : TypesCall :=
  { category := "FABRIC", quality := "Q1", search_q := ""
    response := some [{ id := some "7", value := some "7", type := some "Linen A"
                        label := some "Linen A", label_text := none
                        content_type_id := some "12", content_type := none
                        ct := none, extra := none }] }

/-- Selection B: quality Q2, made while A's request is in flight; its
response (row id 8) arrives first. -/
def typesCallB : TypesCall :=
  { category := "FABRIC", quality := "Q2", search_q := ""
    response := some [{ id := some "8", value := some "8", type := some "Linen B"
                        label := some "Linen B", label_text := none
                        content_type_id := some "12", content_type := none
                        ct := none, extra := none }] }

/-- The overlap: A starts, B starts (superseding A), B's response
arrives, then A's slow response arrives last. -/
def staleSchedule : List ChainEv :=
  [ChainEv.start 0, ChainEv.start 1, ChainEv.resolve 1, ChainEv.resolve 0]

/-! ## `populateFromItemResponse`
(`static/components/js/component_form.js` lines 531–579) -/

/-- The fields of an `inventory_item` JSON response that
`populateFromItemResponse` reads (`none` = absent or null). -/
structure ItemJson where
  cost_per_unit : Option String
  price : Option String
  width : Option String
  width_uom : Option String
  final_price_per_unit : Option String
  price_per_sqfoot : Option String
  final_cost : Option String
  type : Option String
  label : Option String
deriving Repr, DecidableEq

/-- The form fields `populateFromItemResponse` reads and writes: the
cost/width/unit inputs, the three derived fields, the type and name
fields, plus the quality select's value, the logistics input and the
hidden object id, which are only read. -/
structure FormState where
  cost : String
  width : String
  width_uom : String
  final_price : String
  price_per_sqft : String
  final_cost : String
  typeField : String
  name : String
  quality : String
  logistics : String
  hiddenOID : String
deriving Repr, DecidableEq

/-- `populateFromItemResponse` (lines 531–579): a null response is a
no-op; otherwise each server field present and non-empty overwrites its
form field (lines 540–545); the type and auto-generated name fields are
set (lines 547–567); finally `computeClientMetrics` is run on the
server-supplied cost/width/unit and the current logistics value, and
its outputs fill exactly those derived fields that are empty at this
point (lines 569–578). -/
def populateFromItemResponse (st : FormState) (json : Option ItemJson) :
    FormState :=
  match json with
  | none => st
  | some j =>
      let cost := jsOrO j.cost_per_unit (jsOrO j.price "")
      let width := jsOrO j.width ""
      let width_uom := jsOrO j.width_uom "inch"
      let final_price_server := jsOrO j.final_price_per_unit ""
      let price_per_sqft_server := jsOrO j.price_per_sqfoot ""
      let final_cost_server := jsOrO j.final_cost ""
      let st1 : FormState := { st with
        cost := if cost ≠ "" then cost else st.cost
        width := if width ≠ "" then width else st.width
        width_uom := if width_uom ≠ "" then width_uom else st.width_uom
        final_price := if final_price_server ≠ "" then final_price_server else st.final_price
        price_per_sqft := if price_per_sqft_server ≠ "" then price_per_sqft_server else st.price_per_sqft
        final_cost := if final_cost_server ≠ "" then final_cost_server else st.final_cost }
      let typeVal :=
        if jsOrO j.type "" ≠ "" then jsOrO j.type ""
        else if jsOrO j.label "" ≠ "" then jsOrO j.label ""
        else if st.hiddenOID ≠ "" then "Type #" ++ st.hiddenOID
        else ""
      let qualityName := jsTrim st.quality
      let typeName := jsTrim typeVal
      let nameVal :=
        if qualityName ≠ "" ∧ typeName ≠ "" then qualityName ++ " " ++ typeName
        else jsOr typeName qualityName
      let st2 : FormState := { st1 with typeField := typeVal, name := nameVal }
      let cm := clientMetricsStrings (jsOr cost "") (jsOr width "")
        (jsOr width_uom "inch") (jsOr st.logistics "0")
      { st2 with
        final_price := if st2.final_price = "" then cm.final_price_per_unit else st2.final_price
        price_per_sqft := if st2.price_per_sqft = "" then cm.price_per_sqfoot else st2.price_per_sqft
        final_cost := if st2.final_cost = "" then cm.final_cost else st2.final_cost }

/-- The derived fields were blank, a previous product left
`final_cost = "9.99"` behind. -/
def stalePrevState : FormState :=
  { cost := "", width := "", width_uom := "", final_price := ""
    price_per_sqft := "", final_cost := "9.99", typeField := "", name := ""
    quality := "", logistics := "0", hiddenOID := "" }

/-- A successful response that omits every field. -/
def allBlankJson : ItemJson :=
  { cost_per_unit := none, price := none, width := none, width_uom := none
    final_price_per_unit := none, price_per_sqfoot := none, final_cost := none
    type := none, label := none }

/-- A form whose derived fields are blank (quality and logistics set). -/
def blankFormState : FormState :=
  { cost := "", width := "", width_uom := "", final_price := ""
    price_per_sqft := "", final_cost := "", typeField := "", name := ""
    quality := "Premium", logistics := "10", hiddenOID := "42" }

/-- A partial response: cost, width, unit, type and the final price are
supplied; `price_per_sqfoot` and `final_cost` are left blank. -/
def partialItemJson : ItemJson :=
  { cost_per_unit := some "100", price := none, width := some "54"
    width_uom := some "cm", final_price_per_unit := some "110.00"
    price_per_sqfoot := none, final_cost := none
    type := some "Linen", label := none }

/-! ## Debounced SKU preview recomputation
(`src/unnamed/part_004`, lines 777–784, 856–875, 882–886)

`debounceSkuPreview` keeps one shared timer: every checkbox toggle
clears the pending timeout and schedules `updateSkuPreviews` 220 ms
later.  The timed model folds toggle events `(time, colorId)` in time
order over a state holding the checked set, the pending deadline, and
the log of fired batches; firing a batch models the scheduled
`updateSkuPreviews` run, which issues one fetch per currently-checked
color (`checked.map(fetchSkuForColor …)`). -/

/-- The wait passed to `debounceSkuPreview` (line 882). -/
def SKU_DEBOUNCE_WAIT : ℚ := 220

/-- Debounce state: currently-checked color ids (in toggle order), the
pending timer deadline, and the batches fired so far — each batch being
the list of per-color requests it issued. -/
structure DebounceSt where
  checked : List String
  timerDeadline : Option ℚ
  batches : List (List String)
deriving Repr, DecidableEq

/-- The timer fires: `updateSkuPreviews` runs and issues one request per
currently-checked color; the timer is spent. -/
def fireBatch (st : DebounceSt) : DebounceSt :=
  { st with batches := st.batches ++ [st.checked], timerDeadline := none }

/-- Let a pending timer fire if its deadline has passed by `now`. -/
def fireIfDue (st : DebounceSt) (now : ℚ) : DebounceSt :=
  match st.timerDeadline with
  | some d => if d ≤ now then fireBatch st else st
  | none => st

/-- Toggling a checkbox flips the color's membership in the checked
set. -/
def toggleColor (checked : List String) (c : String) : List String :=
  if c ∈ checked then checked.erase c else checked ++ [c]

/-- One toggle event at time `ev.1` on color `ev.2`
(`onColorCheckboxChange` → `updateSkuPreviewsDebounced`): any timer due
before the event fires first; then the toggle flips the checkbox and
the debouncer clears and re-arms the shared timer
(`clearTimeout`/`setTimeout`, lines 778–784). -/
def debounceStep (st : DebounceSt) (ev : ℚ × String) : DebounceSt :=
  let st := fireIfDue st ev.1
  { st with checked := toggleColor st.checked ev.2
            timerDeadline := some (ev.1 + SKU_DEBOUNCE_WAIT) }

/-- After the last event, a still-pending timer eventually fires. -/
def flushTimer (st : DebounceSt) : DebounceSt :=
  match st.timerDeadline with
  | some _ => fireBatch st
  | none => st

/-- Run a time-ordered list of toggle events from the idle state. -/
def runColorToggles (evs : List (ℚ × String)) : DebounceSt :=
  flushTimer (evs.foldl debounceStep
    { checked := [], timerDeadline := none, batches := [] })

/-- The checked set left by a toggle sequence. -/
def checkedAfter (evs : List (ℚ × String)) : List String :=
  evs.foldl (fun l e => toggleColor l e.2) []

/-- Deadline of the timer armed by the last of `evs` (or `d`). -/
def lastDeadline (d : ℚ) : List (ℚ × String) → ℚ
  | [] => d
  | e :: rest => lastDeadline (e.1 + SKU_DEBOUNCE_WAIT) rest

/-- Three toggles 50 ms apart. -/
def threeToggles : List (ℚ × String) := [(0, "red"), (50, "green"), (100, "blue")]

/-! ### Projection lemmas for `computeClientMetrics` (by definition) -/

theorem computeClientMetrics_final_price_def
    (price width : ℚ) (widthUom : String) (logistics : ℚ) :
    (computeClientMetrics price width widthUom logistics).final_price_per_unit
      = round2 (round2 (price * (1 + logistics / 100))) := rfl

theorem computeClientMetrics_final_cost_def
    (price width : ℚ) (widthUom : String) (logistics : ℚ) :
    (computeClientMetrics price width widthUom logistics).final_cost
      = round2 (round2 (price * (1 + logistics / 100))) := rfl

theorem computeClientMetrics_sqft_def
    (price width : ℚ) (widthUom : String) (logistics : ℚ) :
    (computeClientMetrics price width widthUom logistics).price_per_sqfoot
      = round4 (if 0 < computeDenom width widthUom
          then round2 (price * (1 + logistics / 100)) / computeDenom width widthUom
          else 0) := rfl

/-! ### Rounding lemmas -/

theorem jsRound_intCast (n : ℤ) : jsRound (n : ℚ) = n := by
  unfold jsRound
  refine Int.floor_eq_iff.mpr ⟨by linarith, by linarith⟩

theorem jsRound_nonneg {q : ℚ} (h : 0 ≤ q) : 0 ≤ jsRound q := by
  unfold jsRound
  exact Int.le_floor.mpr (by push_cast; linarith)

theorem round2_idem (q : ℚ) : round2 (round2 q) = round2 q := by
  unfold round2
  rw [show ((jsRound (q * 100) : ℚ) / 100) * 100 = ((jsRound (q * 100) : ℤ) : ℚ) by
    field_simp, jsRound_intCast]

theorem round2_nonneg {q : ℚ} (h : 0 ≤ q) : 0 ≤ round2 q := by
  unfold round2
  have h2 : (0 : ℤ) ≤ jsRound (q * 100) := jsRound_nonneg (mul_nonneg h (by norm_num))
  exact div_nonneg (by exact_mod_cast h2) (by norm_num)

theorem round4_nonneg {q : ℚ} (h : 0 ≤ q) : 0 ≤ round4 q := by
  unfold round4
  have h2 : (0 : ℤ) ≤ jsRound (q * 10000) := jsRound_nonneg (mul_nonneg h (by norm_num))
  exact div_nonneg (by exact_mod_cast h2) (by norm_num)

theorem round4_zero : round4 0 = 0 := by
  unfold round4
  rw [show ((0 : ℚ) * 10000) = ((0 : ℤ) : ℚ) by norm_num, jsRound_intCast]
  norm_num

/-- A guarded quotient is non-negative when the guard implies it. -/
theorem ite_nonneg_of {c : Prop} [Decidable c] {x : ℚ} (h : c → 0 ≤ x) :
    0 ≤ if c then x else 0 := by
  split
  · next hc => exact h hc
  · exact le_refl 0

/-- The denominator vanishes at width 0, whatever the unit. -/
theorem computeDenom_zero (widthUom : String) : computeDenom 0 widthUom = 0 := by
  unfold computeDenom
  by_cases h : jsToLower (jsOr widthUom "inch") ∈ cmUnits <;> simp [h]

/-! ## Claim C1 -/

/-- C1 (amended): for width > 0, a non-negative price and a logistics
percentage ≥ -100, `finalCost = finalPricePerUnit =
round2 (price * (1 + logisticsPercent/100))` and
`pricePerSquareFoot ≥ 0`. -/
theorem computeClientMetrics_final_cost_eq_final_price
    (price width : ℚ) (widthUom : String) (logistics : ℚ)
    (hw : 0 < width) (hp : 0 ≤ price) (hl : -100 ≤ logistics) :
    (computeClientMetrics price width widthUom logistics).final_cost
        = (computeClientMetrics price width widthUom logistics).final_price_per_unit
      ∧ (computeClientMetrics price width widthUom logistics).final_price_per_unit
        = round2 (price * (1 + logistics / 100))
      ∧ 0 ≤ (computeClientMetrics price width widthUom logistics).price_per_sqfoot := by
  have hfpu : 0 ≤ round2 (price * (1 + logistics / 100)) :=
    round2_nonneg (mul_nonneg hp (by linarith))
  rw [computeClientMetrics_final_cost_def, computeClientMetrics_final_price_def,
    computeClientMetrics_sqft_def]
  refine ⟨rfl, round2_idem _, round4_nonneg (ite_nonneg_of ?_)⟩
  exact fun hd => div_nonneg hfpu (le_of_lt hd)

/-- Witness for C1 (amended) at price 1, width 1 inch, logistics 0. -/
theorem computeClientMetrics_final_cost_eq_final_price_witness :
    (computeClientMetrics 1 1 "inch" 0).final_cost
        = (computeClientMetrics 1 1 "inch" 0).final_price_per_unit
      ∧ (computeClientMetrics 1 1 "inch" 0).final_price_per_unit
        = round2 (1 * (1 + 0 / 100))
      ∧ 0 ≤ (computeClientMetrics 1 1 "inch" 0).price_per_sqfoot :=
  computeClientMetrics_final_cost_eq_final_price 1 1 "inch" 0 (by norm_num)
    (by norm_num) (by norm_num)

/-! ## Claim C2 -/

/-- C2: width normalization (centimeter units divided by 2.54, anything
else taken as inches), `pricePerSquareFoot = finalPricePerUnit / denom`
with `denom = (widthInInch * 2.54 / 1.07) / 100` guarded by
`denom > 0`, and in particular zero width yields 0 instead of a
division error; the embedded function is total on all inputs. -/
theorem computeClientMetrics_sqft_formula
    (price width : ℚ) (widthUom : String) (logistics : ℚ) :
    ((computeClientMetrics price width widthUom logistics).price_per_sqfoot =
      (let widthInInch : ℚ :=
        if jsToLower (jsOr widthUom "inch") ∈ cmUnits then width / (254 / 100) else width
       let denom : ℚ := ((widthInInch * (254 / 100)) / (107 / 100)) / 100
       if 0 < denom then round4 (round2 (price * (1 + logistics / 100)) / denom) else 0))
    ∧ computeDenom 0 widthUom = 0
    ∧ (computeClientMetrics price 0 widthUom logistics).price_per_sqfoot = 0 := by
  refine ⟨?_, computeDenom_zero widthUom, ?_⟩
  · rw [computeClientMetrics_sqft_def, apply_ite round4, round4_zero]
    rfl
  · rw [computeClientMetrics_sqft_def, computeDenom_zero,
      if_neg (lt_irrefl (0 : ℚ)), round4_zero]

/-- C1 counterexample: `computeClientMetrics` accepts negative prices
(the `parseNum` filter keeps the minus sign), and then
`pricePerSquareFoot` is negative although `width > 0`: for price `-1`,
width `1` inch, logistics `0` the computed `price_per_sqfoot` is
negative, refuting `pricePerSquareFoot >= 0` as stated. -/
theorem computeClientMetrics_negative_price_negative_sqft :
    (computeClientMetrics (-1) 1 "inch" 0).price_per_sqfoot < 0 := by decide

/-! ## Claim C9 -/

/-- C9 (amended): the Derived Metric Calculator produces a well-defined
finite number for each of its three outputs on every string input
(totality of the embedding), and all outputs are non-negative provided
the parsed price is non-negative and the parsed logistics percentage is
at least -100.  (The calculator outputs only `final_price_per_unit`,
`price_per_sqfoot` and `final_cost`; `cost_per_unit` and `width` are
inputs, not outputs.) -/
theorem computeClientMetricsStr_nonneg (p w u l : String)
    (hp : 0 ≤ parseNum p) (hl : -100 ≤ parseNum l) :
    0 ≤ (computeClientMetricsStr p w u l).final_price_per_unit
    ∧ 0 ≤ (computeClientMetricsStr p w u l).price_per_sqfoot
    ∧ 0 ≤ (computeClientMetricsStr p w u l).final_cost := by
  have he : 0 ≤ parseNum p * (1 + parseNum l / 100) :=
    mul_nonneg hp (by linarith)
  unfold computeClientMetricsStr
  rw [computeClientMetrics_final_price_def, computeClientMetrics_final_cost_def,
    computeClientMetrics_sqft_def]
  refine ⟨round2_nonneg (round2_nonneg he), ?_, round2_nonneg (round2_nonneg he)⟩
  exact round4_nonneg (ite_nonneg_of fun hd =>
    div_nonneg (round2_nonneg he) (le_of_lt hd))

/-- Witness for C9 (amended) at price "2", width "10" cm, logistics "5". -/
theorem computeClientMetricsStr_nonneg_witness :
    0 ≤ (computeClientMetricsStr "2" "10" "cm" "5").final_price_per_unit
    ∧ 0 ≤ (computeClientMetricsStr "2" "10" "cm" "5").price_per_sqfoot
    ∧ 0 ≤ (computeClientMetricsStr "2" "10" "cm" "5").final_cost :=
  computeClientMetricsStr_nonneg "2" "10" "cm" "5" (by decide) (by decide)

/-- C9 counterexample: for the string input price "-5" the computed
`final_price_per_unit` is negative, refuting "always non-negative for
every possible string input". -/
theorem computeClientMetricsStr_negative_output :
    (computeClientMetricsStr "-5" "1" "inch" "0").final_price_per_unit < 0 := by
  decide

/-! ## Claim C10 -/

/-- C10: `sendMessage` transmits a frame exactly when the socket is open
and the trimmed input is non-empty and at most `MAX_PAYLOAD_LENGTH`
(2000) characters; the transmitted payload carries the trimmed text and
the resolved username (defaulting to "anonymous"); in every other case
nothing is sent and the state (in particular the input) is unchanged. -/
theorem sendMessage_guard_and_payload (st : ChatState) :
    sendMessage st =
      (if st.socketOpen = true ∧ jsTrim st.inputValue ≠ ""
          ∧ (jsTrim st.inputValue).length ≤ MAX_PAYLOAD_LENGTH
       then ({ st with inputValue := "" },
             some { message := jsTrim st.inputValue,
                    username := resolveUsername st })
       else (st, none)) := by
  unfold sendMessage
  rcases st with ⟨so, iv, gu, du⟩
  cases so with
  | false => simp
  | true =>
      by_cases he : jsTrim iv = ""
      · simp [he]
      · by_cases hl : MAX_PAYLOAD_LENGTH < (jsTrim iv).length
        · simp [he, hl, Nat.not_le.mpr hl]
        · simp [he, hl, Nat.not_lt.mp hl]

/-! ## Claim C7 -/

/-- C7: after a SKU-preview recomputation, the canonical SKU field holds
the single checked color's fetched SKU when exactly one color is
checked, and is cleared (empty) when zero or several are checked. -/
theorem updateSkuPreviews_sku_field (skuOf : String → String)
    (checked : List ColorBox) :
    (updateSkuPreviews skuOf checked).1 =
      (match checked with
       | [c] => skuOf c.value
       | _ => "") := by
  unfold updateSkuPreviews
  cases checked with
  | nil => rfl
  | cons a t =>
      cases t with
      | nil =>
          simp [fetchSkuForColor, jsOr]
          by_cases h : skuOf a.value = "" <;> simp [h]
      | cons b t2 => simp [fetchSkuForColor]

/-! ## Claim C6 -/

/-- C6 is refuted by the code: on a non-success status with a parseable
JSON body, the error that escapes `safeFetch` carries the raw response
text, never the parsed structured body — the `throw e` with
`e.body = json` (line 126) is caught by the `catch` of its own `try`
block, which rethrows with `e.body = text` (line 134).  The HTTP status
is still carried, and failure is delivered through the rejection
channel (the embedding is total), but the structured-body clause fails
on every parseable non-ok response, as evaluated here on a 500 response
with body `\x7b"ok": false\x7d`. -/
theorem safeFetch_nonok_body_is_raw_text :
    safeFetch "/components/ajax/qualities/" badJsonResp
      = Except.error (FetchError.http 500 "Server Error"
          (Sum.inr "\x7b\"ok\":false\x7d"))
    ∧ ∀ j : JsonV,
        (Sum.inr "\x7b\"ok\":false\x7d" : JsonV ⊕ String) ≠ Sum.inl j :=
  ⟨rfl, fun _ h => by cases h⟩

/-! ## Claim C4 -/

/-- C4 is a required property the code does not implement
(`loadTypesByQuality` has no generation guard — the spec itself flags
this as a defect): running selection A, then selection B while A's
request for the dependent level is still in flight, and letting A's
response arrive after B's, leaves A's (superseded) options in the
product select, not B's.  So a slow earlier response does overwrite the
result of a later selection, contradicting "only B's results are ever
written". -/
theorem loadTypes_stale_response_overwrites :
    (runTypesSchedule [typesCallA, typesCallB] staleSchedule chainInit).st.product.opts
        = (typesCallA.response.getD []).map mkTypeOpt
    ∧ (typesCallA.response.getD []).map mkTypeOpt
        ≠ (typesCallB.response.getD []).map mkTypeOpt := by
  constructor
  · decide
  · decide

/-! ## Claim C5 -/

/-- C5: an empty category (resp. an empty category or quality) makes the
loader clear the dependent selects to their placeholder state, clear the
hidden content-type/object-id fields, and issue no request at all to the
Remote Lookup Client. -/
theorem emptySelection_clears_descendants_no_request
    (st : ChainSt) (category quality sq : String) :
    ((loadQualitiesStart st "").2.1 = none
      ∧ (loadQualitiesStart st "").1.quality = clearSelect "-- Select category first --"
      ∧ (loadQualitiesStart st "").1.product = clearSelect "-- Select type after quality --"
      ∧ (loadQualitiesStart st "").1.hiddenCT = ""
      ∧ (loadQualitiesStart st "").1.hiddenOID = "")
    ∧ ((loadTypesStart st category "" sq).2.1 = none
      ∧ (loadTypesStart st category "" sq).1.product = clearSelect "-- Select quality first --"
      ∧ (loadTypesStart st category "" sq).1.hiddenCT = ""
      ∧ (loadTypesStart st category "" sq).1.hiddenOID = "")
    ∧ ((loadTypesStart st "" quality sq).2.1 = none
      ∧ (loadTypesStart st "" quality sq).1.product = clearSelect "-- Select quality first --"
      ∧ (loadTypesStart st "" quality sq).1.hiddenCT = ""
      ∧ (loadTypesStart st "" quality sq).1.hiddenOID = "") := by
  refine ⟨?_, ?_, ?_⟩ <;>
    simp [loadQualitiesStart, loadTypesStart, setHidden, clearSelect]

/-- Witness for C5 at a populated state and category "FABRIC",
quality "Q1", empty search. -/
theorem emptySelection_clears_descendants_no_request_witness :
    ((loadQualitiesStart chainInit "").2.1 = none
      ∧ (loadQualitiesStart chainInit "").1.quality = clearSelect "-- Select category first --"
      ∧ (loadQualitiesStart chainInit "").1.product = clearSelect "-- Select type after quality --"
      ∧ (loadQualitiesStart chainInit "").1.hiddenCT = ""
      ∧ (loadQualitiesStart chainInit "").1.hiddenOID = "")
    ∧ ((loadTypesStart chainInit "FABRIC" "" "").2.1 = none
      ∧ (loadTypesStart chainInit "FABRIC" "" "").1.product = clearSelect "-- Select quality first --"
      ∧ (loadTypesStart chainInit "FABRIC" "" "").1.hiddenCT = ""
      ∧ (loadTypesStart chainInit "FABRIC" "" "").1.hiddenOID = "")
    ∧ ((loadTypesStart chainInit "" "Q1" "").2.1 = none
      ∧ (loadTypesStart chainInit "" "Q1" "").1.product = clearSelect "-- Select quality first --"
      ∧ (loadTypesStart chainInit "" "Q1" "").1.hiddenCT = ""
      ∧ (loadTypesStart chainInit "" "Q1" "").1.hiddenOID = "") :=
  emptySelection_clears_descendants_no_request chainInit "FABRIC" "Q1" ""

/-! ## Claim C3 -/

/-- C3 counterexample: when the server leaves `final_cost` blank but the
field already holds a (stale) non-empty value, `populateFromItemResponse`
keeps the stale value — the local computation fills only fields that are
empty *at that moment*, not every field the server left blank.  Here the
field keeps `"9.99"` although the server sent nothing and the locally
computed value is `"0.00"`. -/
theorem populateFromItemResponse_keeps_stale_value :
    (populateFromItemResponse stalePrevState (some allBlankJson)).final_cost = "9.99"
    ∧ (clientMetricsStrings "" "" "inch" "0").final_cost = "0.00"
    ∧ ("9.99" : String) ≠ "0.00" := by
  refine ⟨by decide, by decide, by decide⟩

/-- C3 (amended): provided the three derived fields are blank when the
response is processed (as they are after the quality-change handler
clears them), each derived field ends up holding the server's value when
it is present and non-empty, and the locally computed
`computeClientMetrics` value otherwise; a null/absent response is a
no-op, and a partial response is handled by the same total function —
never an error. -/
theorem populateFromItemResponse_server_precedence
    (st : FormState) (j : ItemJson)
    (h1 : st.final_price = "") (h2 : st.price_per_sqft = "")
    (h3 : st.final_cost = "") :
    (let cost := jsOrO j.cost_per_unit (jsOrO j.price "")
     let width := jsOrO j.width ""
     let width_uom := jsOrO j.width_uom "inch"
     let cm := clientMetricsStrings (jsOr cost "") (jsOr width "")
       (jsOr width_uom "inch") (jsOr st.logistics "0")
     ((populateFromItemResponse st (some j)).final_price
        = (if jsOrO j.final_price_per_unit "" ≠ "" then jsOrO j.final_price_per_unit ""
           else cm.final_price_per_unit))
     ∧ ((populateFromItemResponse st (some j)).price_per_sqft
        = (if jsOrO j.price_per_sqfoot "" ≠ "" then jsOrO j.price_per_sqfoot ""
           else cm.price_per_sqfoot))
     ∧ ((populateFromItemResponse st (some j)).final_cost
        = (if jsOrO j.final_cost "" ≠ "" then jsOrO j.final_cost ""
           else cm.final_cost)))
    ∧ populateFromItemResponse st none = st := by
  refine ⟨⟨?_, ?_, ?_⟩, rfl⟩
  · simp only [populateFromItemResponse]
    by_cases hs : jsOrO j.final_price_per_unit "" = "" <;> simp [hs, h1]
  · simp only [populateFromItemResponse]
    by_cases hs : jsOrO j.price_per_sqfoot "" = "" <;> simp [hs, h2]
  · simp only [populateFromItemResponse]
    by_cases hs : jsOrO j.final_cost "" = "" <;> simp [hs, h3]

/-- Witness for C3 (amended) on a blank form and a partial response. -/
theorem populateFromItemResponse_server_precedence_witness :
    (let cost := jsOrO partialItemJson.cost_per_unit (jsOrO partialItemJson.price "")
     let width := jsOrO partialItemJson.width ""
     let width_uom := jsOrO partialItemJson.width_uom "inch"
     let cm := clientMetricsStrings (jsOr cost "") (jsOr width "")
       (jsOr width_uom "inch") (jsOr blankFormState.logistics "0")
     ((populateFromItemResponse blankFormState (some partialItemJson)).final_price
        = (if jsOrO partialItemJson.final_price_per_unit "" ≠ ""
           then jsOrO partialItemJson.final_price_per_unit ""
           else cm.final_price_per_unit))
     ∧ ((populateFromItemResponse blankFormState (some partialItemJson)).price_per_sqft
        = (if jsOrO partialItemJson.price_per_sqfoot "" ≠ ""
           then jsOrO partialItemJson.price_per_sqfoot ""
           else cm.price_per_sqfoot))
     ∧ ((populateFromItemResponse blankFormState (some partialItemJson)).final_cost
        = (if jsOrO partialItemJson.final_cost "" ≠ ""
           then jsOrO partialItemJson.final_cost ""
           else cm.final_cost)))
    ∧ populateFromItemResponse blankFormState none = blankFormState :=
  populateFromItemResponse_server_precedence blankFormState partialItemJson rfl rfl rfl

/-- While every next toggle lands before the pending deadline (gaps of
at most 100 ms < 220 ms), the fold never fires a batch: it only flips
checkboxes and re-arms the timer. -/
theorem debounceRun_no_fire (evs : List (ℚ × String)) :
    ∀ (checked : List String) (batches : List (List String)) (d : ℚ),
    (∀ e ∈ evs.head?, e.1 < d) →
    List.Chain' (fun a b => a.1 ≤ b.1 ∧ b.1 - a.1 ≤ 100) evs →
    evs.foldl debounceStep
        { checked := checked, timerDeadline := some d, batches := batches }
      = { checked := evs.foldl (fun l e => toggleColor l e.2) checked
          timerDeadline := some (lastDeadline d evs)
          batches := batches } := by
  induction evs with
  | nil => intro checked batches d hh hc; rfl
  | cons e rest ih =>
      intro checked batches d hh hc
      rw [List.chain'_cons'] at hc
      have hlt : e.1 < d := hh e rfl
      have hstep : debounceStep
          { checked := checked, timerDeadline := some d, batches := batches } e
          = { checked := toggleColor checked e.2
              timerDeadline := some (e.1 + SKU_DEBOUNCE_WAIT)
              batches := batches } := by
        simp [debounceStep, fireIfDue, not_le.mpr hlt]
      have hh2 : ∀ e2 ∈ rest.head?, e2.1 < e.1 + SKU_DEBOUNCE_WAIT := by
        intro e2 hm
        have hrel := hc.1 e2 hm
        unfold SKU_DEBOUNCE_WAIT
        linarith [hrel.1, hrel.2]
      rw [List.foldl_cons, hstep,
        ih (toggleColor checked e.2) batches (e.1 + SKU_DEBOUNCE_WAIT) hh2 hc.2]
      rfl

/-! ## Claim C8 -/

/-- C8: for a non-empty, time-ordered sequence of checkbox toggles in
which each toggle follows the previous one within 100 ms (inside the
220 ms quiet window), exactly one SKU-preview batch is fired, and that
single batch issues one request per currently-checked color — the
checked set left by the whole toggle sequence. -/
theorem debounce_single_batch (evs : List (ℚ × String))
    (hne : evs ≠ [])
    (hchain : List.Chain' (fun a b => a.1 ≤ b.1 ∧ b.1 - a.1 ≤ 100) evs) :
    (runColorToggles evs).batches = [checkedAfter evs] := by
  match evs, hne with
  | e :: rest, _ =>
      unfold runColorToggles
      rw [List.chain'_cons'] at hchain
      have hstep : debounceStep
          { checked := [], timerDeadline := none, batches := [] } e
          = { checked := toggleColor [] e.2
              timerDeadline := some (e.1 + SKU_DEBOUNCE_WAIT)
              batches := [] } := by
        simp [debounceStep, fireIfDue]
      have hh2 : ∀ e2 ∈ rest.head?, e2.1 < e.1 + SKU_DEBOUNCE_WAIT := by
        intro e2 hm
        have hrel := hchain.1 e2 hm
        unfold SKU_DEBOUNCE_WAIT
        linarith [hrel.1, hrel.2]
      rw [List.foldl_cons, hstep,
        debounceRun_no_fire rest (toggleColor [] e.2) [] (e.1 + SKU_DEBOUNCE_WAIT)
          hh2 hchain.2]
      rfl

/-- Witness for C8: toggling red, green and blue at 0/50/100 ms produces
exactly one batch containing the three checked colors. -/
theorem debounce_single_batch_witness :
    (runColorToggles threeToggles).batches = [checkedAfter threeToggles] :=
  debounce_single_batch threeToggles (by decide)
    (by
      unfold threeToggles
      refine List.chain'_cons.mpr ⟨⟨by norm_num, by norm_num⟩,
        List.chain'_cons.mpr ⟨⟨by norm_num, by norm_num⟩, List.chain'_singleton _⟩⟩)
